import Mathlib

/-!
Verification of the radis line-by-line front-end (`radis/lbl/calc.py`) and of
the spectral-synthesis core described by the project specification.

The front-end `calc_spectrum` / `_calc_spectrum` (input validation, molecule
consistency checks, wavelength/wavenumber range resolution, and the dispatch
between the equilibrium and non-equilibrium synthesis routines) is embedded
directly from the source.  Physical quantities are modelled with exact
rationals; database loading is I/O and is not modelled — the dispatch result
records which synthesis routine would be invoked and with which arguments.

The synthesis engine itself (LDM template bank, scatter-add density arrays,
range filtering, Doppler width) is not part of the sources at hand; its
definitions below are modelled from the specification and are marked as such
in their doc comments.
-/

namespace Radis

/-- Errors raised by `_calc_spectrum` (`ValueError`, `NotImplementedError`,
and failed `assert` statements). -/
inductive CalcError where
  | valueError (msg : String)
  | notImplementedError (msg : String)
  | assertionError
  deriving DecidableEq, Repr

/-- Which synthesis routine `_calc_spectrum` invokes, and with which
temperature arguments (`radis/lbl/calc.py`, lines 688-717).  `eqSpectrum` is
driven by `Tgas` alone; `nonEqSpectrum` receives `Tvib`, `Trot` and the
translational temperature `Ttrans`. -/
inductive Routine where
  | eqSpectrum (Tgas : Option ℚ)
  | eqSpectrumGpu (Tgas : Option ℚ)
  | nonEqSpectrum (Tvib Trot Ttrans : Option ℚ)
  deriving DecidableEq, Repr

/-- Returns true exactly for the two equilibrium routines. -/
def Routine.isEq : Routine → Bool
  | .eqSpectrum _ => true
  | .eqSpectrumGpu _ => true
  | .nonEqSpectrum _ _ _ => false

/-- The arguments of `_calc_spectrum` that the embedded checks and the
dispatch read.  `none` stands for Python `None`; `self_absorption` models the
optional `self_absorption` entry of `kwargs`. -/
structure CalcArgs where
  wavenum_min : Option ℚ
  wavenum_max : Option ℚ
  wavelength_min : Option ℚ
  wavelength_max : Option ℚ
  Tgas : Option ℚ
  Tvib : Option ℚ
  Trot : Option ℚ
  overpopulation : Option (List (String × ℚ))
  medium : String
  databank : Option String
  mode : String
  self_absorption : Option Bool
  deriving DecidableEq, Repr

/-- `radis.phys.convert.nm2cm`.  Modelled from the spec: unit conversion is an
external collaborator; a wavelength of x nm corresponds to a wavenumber of
10^7 / x cm^-1. -/
def nm2cm (x : ℚ) : ℚ := 10 ^ 7 / x

/-- Wavenumber-range resolution of `_calc_spectrum`
(`radis/lbl/calc.py`, lines 515-526).  When both wavenumber bounds are `None`
the working range is derived from the wavelength bounds, exchanging min and
max, applying the air-to-vacuum correction `a2v` first unless the medium is
vacuum.  `a2v` stands for `radis.phys.air.air2vacuum`, an external
collaborator kept abstract. -/
def resolveWavenumBounds (wavenum_min wavenum_max wavelength_min wavelength_max : Option ℚ)
    (medium : String) (a2v : ℚ → ℚ) : Except CalcError (ℚ × ℚ) :=
  if wavenum_min = none ∧ wavenum_max = none then
    match wavelength_max, wavelength_min with
    | some wlM, some wlm =>
        if medium = "vacuum" then
          .ok (nm2cm wlM, nm2cm wlm)
        else
          .ok (nm2cm (a2v wlM), nm2cm (a2v wlm))
    | _, _ => .error .assertionError
  else
    match wavenum_min, wavenum_max with
    | some a, some b => .ok (a, b)
    | _, _ => .error .assertionError

/-- `_is_at_equilibrium` (`radis/lbl/calc.py`, lines 550-561): equilibrium
holds when `Tvib` is `None` or equals `Tgas`, `Trot` is `None` or equals
`Tgas`, there is no overpopulation, and `self_absorption`, when given in
`kwargs`, is `True`. -/
def is_at_equilibrium (a : CalcArgs) : Bool :=
  (a.Tvib == none || a.Tvib == a.Tgas) &&
  (a.Trot == none || a.Trot == a.Tgas) &&
  a.overpopulation == none &&
  (match a.self_absorption with
   | none => true
   | some b => b)

/-- The input checks of `_calc_spectrum` in source order
(`radis/lbl/calc.py`, lines 504-541): the wavelength/wavenumber conflict
check, the medium check, the range resolution, the temperature checks and the
databank check.  Returns the resolved working wavenumber bounds. -/
def validateInputs (a : CalcArgs) (a2v : ℚ → ℚ) : Except CalcError (ℚ × ℚ) :=
  if (a.wavelength_min ≠ none ∨ a.wavelength_max ≠ none) ∧
      (a.wavenum_min ≠ none ∨ a.wavenum_max ≠ none) then
    .error (.valueError "Wavenumber and Wavelength both given")
  else if ¬ (a.medium = "air" ∨ a.medium = "vacuum") then
    .error (.notImplementedError "Unknown propagating medium")
  else do
    let bounds ← resolveWavenumBounds a.wavenum_min a.wavenum_max
      a.wavelength_min a.wavelength_max a.medium a2v
    if a.Tgas = none ∧ a.Trot = none then
      .error (.valueError "Choose either Tgas or Tvib and Trot")
    else if (a.Tvib = none ∧ a.Trot ≠ none) ∨ (a.Tvib ≠ none ∧ a.Trot = none) then
      .error (.valueError "Choose both Tvib and Trot")
    else if a.databank = none then
      .error (.valueError "Give a databank name")
    else
      .ok bounds

/-- The equilibrium / non-equilibrium dispatch of `_calc_spectrum`
(`radis/lbl/calc.py`, lines 688-717). -/
def dispatchRoutine (a : CalcArgs) : Except CalcError Routine :=
  if is_at_equilibrium a then
    if a.mode = "cpu" then .ok (.eqSpectrum a.Tgas)
    else if a.mode = "gpu" then .ok (.eqSpectrumGpu a.Tgas)
    else .error (.valueError a.mode)
  else
    if a.mode ≠ "cpu" then .error (.notImplementedError a.mode)
    else .ok (.nonEqSpectrum a.Tvib a.Trot a.Tgas)

/-- `_calc_spectrum` (`radis/lbl/calc.py`, lines 474-719): validate the
inputs, then dispatch to a synthesis routine.  The factory construction and
database loading that sit between the two stages are I/O and are not
modelled; an error result means they are never reached. -/
def calc_spectrum_one (a : CalcArgs) (a2v : ℚ → ℚ) :
    Except CalcError ((ℚ × ℚ) × Routine) := do
  let bounds ← validateInputs a a2v
  let r ← dispatchRoutine a
  .ok (bounds, r)

/-- `_check_molecules_are_consistent` (`radis/lbl/calc.py`, lines 330-362).
A dict-valued argument is modelled by `some` of its key set, a scalar
argument by `none`.  If the argument is a dict and a reference set is already
established, differing key sets raise `ValueError`; otherwise the dict keys
become the new reference. -/
def check_molecules_are_consistent (ref : Option (Finset String)) (refName : String)
    (arg : Option (Finset String)) (argName : String) :
    Except CalcError (Option (Finset String) × String) :=
  match arg, ref with
  | some keys, none => .ok (some keys, argName)
  | some keys, some r =>
      if keys ≠ r then
        .error (.valueError "Keys of molecules in the dictionary must be the same")
      else
        .ok (some keys, argName)
  | none, _ => .ok (ref, refName)

/-- Stage 1 of `calc_spectrum` (`radis/lbl/calc.py`, lines 318-378): fold the
consistency check over `isotope`, `mole_fraction` and `databank` in source
order, starting from the `molecule` argument, then require that a molecule
set was established. -/
def parseMoleculeSet (molecule isotope mole_fraction databank : Option (Finset String)) :
    Except CalcError (Finset String) := do
  let s1 ← check_molecules_are_consistent molecule "molecule" isotope "isotope"
  let s2 ← check_molecules_are_consistent s1.1 s1.2 mole_fraction "mole_fraction"
  let s3 ← check_molecules_are_consistent s2.1 s2.2 databank "databank"
  match s3.1 with
  | none => .error (.valueError "Please enter the molecules to calculate")
  | some mols => .ok mols

/-- `calc_spectrum` (`radis/lbl/calc.py`, lines 34-471): establish the
molecule set (stage 1), then run `_calc_spectrum` once per molecule
(stage 3).  The per-molecule scalar arguments are summarised by a single
`CalcArgs`; the dict-or-scalar shape of `isotope`, `mole_fraction` and
`databank` is what the consistency check reads, so only their key sets are
modelled here.  The slab merge of stage 4 is out of scope. -/
def calc_spectrum (molecule isotope mole_fraction databank : Option (Finset String))
    (a : CalcArgs) (a2v : ℚ → ℚ) : Except CalcError (List ((ℚ × ℚ) × Routine)) := do
  let mols ← parseMoleculeSet molecule isotope mole_fraction databank
  (mols.sort (fun x y => x ≤ y)).mapM (fun _ => calc_spectrum_one a a2v)

/-- Modelled from the spec (§3, §4.3; the LDM scatter-add code is not among
the sources at hand): a spectral line prepared for LDM weight assignment.
`bin` is the index of the center-wavenumber bin, `strength` the linestrength,
`(ig, il)` the bracketing template indices in the Gaussian and Lorentzian
width dimensions, and `(ag, al)` the interpolation fractions in each
dimension.  The fractions are left unconstrained so that both weighting
policies (`"simple"`: relative position; `"min-RMS"`: relative position plus
an error-minimizing correction) are covered. -/
structure LdmLine where
  bin : ℕ
  strength : ℚ
  ig : ℕ
  il : ℕ
  ag : ℚ
  al : ℚ
  deriving DecidableEq, Repr

/-- Modelled from the spec (§4.3): the up-to-4 template corners a line
contributes to, with their bilinear corner weights built from the per-axis
fractions. -/
def cornerWeights (L : LdmLine) : List ((ℕ × ℕ) × ℚ) :=
  [((L.ig, L.il), (1 - L.ag) * (1 - L.al)),
   ((L.ig + 1, L.il), L.ag * (1 - L.al)),
   ((L.ig, L.il + 1), (1 - L.ag) * L.al),
   ((L.ig + 1, L.il + 1), L.ag * L.al)]

/-- Modelled from the spec (§3): the scatter-add contributions to the
per-template density arrays, one entry per (template, bin) key carrying
`linestrength * corner weight`.  Duplicate keys accumulate, as in the
scatter-add. -/
def ldmContribs (lines : List LdmLine) : List (((ℕ × ℕ) × ℕ) × ℚ) :=
  lines.flatMap (fun L =>
    (cornerWeights L).map (fun cw => ((cw.1, L.bin), L.strength * cw.2)))

/-- Sum of the values of all entries of `l` whose key is `k` (the value an
accumulating scatter-add leaves in cell `k`). -/
def fiberSum {κ : Type} [DecidableEq κ] (l : List (κ × ℚ)) (k : κ) : ℚ :=
  ((l.filter (fun p => p.1 = k)).map (fun p => p.2)).sum

/-- Modelled from the spec (§3): the per-template density array, read at a
(template, bin) key. -/
def ldmDensity (lines : List LdmLine) (key : (ℕ × ℕ) × ℕ) : ℚ :=
  fiberSum (ldmContribs lines) key

/-- Total input linestrength of a line set. -/
def totalLinestrength (lines : List LdmLine) : ℚ :=
  (lines.map (fun L => L.strength)).sum

/-- Modelled from the spec (§4.4): the LDM synthesis contributions — each
density-array entry convolved with its template kernel sampled on the
working grid, laid out as (grid index, value) pairs. -/
def synthContribs (lines : List LdmLine) (kernel : ℕ × ℕ → List ℚ) : List (ℕ × ℚ) :=
  (ldmContribs lines).flatMap (fun p =>
    (kernel p.1.1).enum.map (fun iw => (p.1.2 + iw.1, p.2 * iw.2)))

/-- Modelled from the spec (§4.4): the synthesized coefficient at a grid
index, LDM path (`optimization` in `"simple"` / `"min-RMS"`). -/
def ldmSpectrum (lines : List LdmLine) (kernel : ℕ × ℕ → List ℚ) (j : ℕ) : ℚ :=
  fiberSum (synthContribs lines kernel) j

/-- Modelled from the spec (§4.4): the `optimization=None` path — every
line convolved with its own exact sampled lineshape. -/
def exactContribs (lines : List LdmLine) (shape : LdmLine → List ℚ) : List (ℕ × ℚ) :=
  lines.flatMap (fun L =>
    (shape L).enum.map (fun iw => (L.bin + iw.1, L.strength * iw.2)))

/-- Modelled from the spec (§4.4): the synthesized coefficient at a grid
index, `optimization=None` path. -/
def exactSpectrum (lines : List LdmLine) (shape : LdmLine → List ℚ) (j : ℕ) : ℚ :=
  fiberSum (exactContribs lines shape) j

/-- Modelled from the spec (§3; the range-filter code is not among the
sources at hand): before synthesis, keep exactly the lines whose center
wavenumber lies within the requested range extended by
`broadening_max_width / 2` on each side (closed interval: the boundary is
included). -/
def rangeFilter (wavenum_min wavenum_max broadening_max_width : ℚ)
    (lines : List ℚ) : List ℚ :=
  lines.filter (fun v =>
    wavenum_min - broadening_max_width / 2 ≤ v ∧
    v ≤ wavenum_max + broadening_max_width / 2)

/-- Modelled from the spec (§4.1; the broadening code is not among the
sources at hand): Doppler (Gaussian) broadening width,
`gamma_gaussian = wavenumber * sqrt(2 ln2 * k_B * T / (mass * c^2))`,
stated over the reals. -/
noncomputable def gamma_gaussian (wavenumber kB mass c T : ℝ) : ℝ :=
  wavenumber * Real.sqrt (2 * Real.log 2 * kB * T / (mass * c ^ 2))

/-- Modelled from the spec (§4.2; the template-bank code is not among the
sources at hand): build the template axis for one width dimension.  With
fewer than 2 distinct widths the bank degenerates to the single distinct
width (no spacing is ever computed); otherwise a log-spaced axis covering
the min and max width is built by `axisBuilder`, kept abstract here since
the spec leaves its density configurable. -/
def buildTemplates (axisBuilder : ℚ → ℚ → List ℚ) (widths : List ℚ) : List ℚ :=
  let d := widths.dedup
  if d.length < 2 then d
  else axisBuilder (d.foldr min (d.headD 0)) (d.foldr max (d.headD 0))

/-- Modelled from the spec (§4.3): interpolation fraction of `g` between the
first bracketing pair of consecutive bank entries (general, non-degenerate
branch; this is where the spacing division lives). -/
def bracketFrac : List ℚ → ℚ → ℚ
  | a :: b :: rest, g => if g ≤ b then (g - a) / (b - a) else bracketFrac (b :: rest) g
  | _, _ => 0

/-- Modelled from the spec (§4.2, §4.3): the weight a line of width `g`
receives on its (first) template.  With a degenerate bank (fewer than 2
templates) the weight is exactly 1 and no spacing division is performed. -/
def ldmWeightOn (bank : List ℚ) (g : ℚ) : ℚ :=
  if bank.length < 2 then 1 else 1 - bracketFrac bank g

/-- Concrete equilibrium call for witnesses: wavenumber bounds given, only
`Tgas` set, CPU mode. -/
def argsEqEx : CalcArgs :=
  { wavenum_min := some 1900, wavenum_max := some 2300,
    wavelength_min := none, wavelength_max := none,
    Tgas := some 300, Tvib := none, Trot := none,
    overpopulation := none, medium := "air",
    databank := some "hitran", mode := "cpu", self_absorption := none }

/-- Concrete call giving both a wavelength and a wavenumber bound. -/
def argsConflictEx : CalcArgs :=
  { wavenum_min := some 1900, wavenum_max := none,
    wavelength_min := some 4000, wavelength_max := none,
    Tgas := some 300, Tvib := none, Trot := none,
    overpopulation := none, medium := "air",
    databank := some "hitran", mode := "cpu", self_absorption := none }

/-- Concrete non-equilibrium call (`Tvib` differs from `Tgas`) requesting
GPU mode. -/
def argsNonEqGpuEx : CalcArgs :=
  { wavenum_min := some 1900, wavenum_max := some 2300,
    wavelength_min := none, wavelength_max := none,
    Tgas := some 300, Tvib := some 2000, Trot := some 1500,
    overpopulation := none, medium := "air",
    databank := some "hitran", mode := "gpu", self_absorption := none }

/-- Concrete two-line set for the conservation witness (one line with
"simple"-style fractions, one with an off-grid "min-RMS"-style fraction). -/
def linesEx : List LdmLine :=
  [⟨0, 3, 0, 0, 1/4, 1/3⟩, ⟨2, 5, 1, 0, -1/10, 1/2⟩]

/-- Concrete normalized template kernel for the conservation witness. -/
def kernelEx : ℕ × ℕ → List ℚ := fun _ => [1/2, 1/4, 1/4]

/-- Concrete normalized exact lineshape for the conservation witness. -/
def shapeEx : LdmLine → List ℚ := fun _ => [1/2, 1/2]

/-- Support of the density array of `linesEx`. -/
def KdEx : Finset ((ℕ × ℕ) × ℕ) := ((ldmContribs linesEx).map Prod.fst).toFinset

/-- Support of the LDM-synthesized spectrum of `linesEx` with `kernelEx`. -/
def KsEx : Finset ℕ := ((synthContribs linesEx kernelEx).map Prod.fst).toFinset

/-- Support of the exact-path spectrum of `linesEx` with `shapeEx`. -/
def KeEx : Finset ℕ := ((exactContribs linesEx shapeEx).map Prod.fst).toFinset

/-! ## Theorems -/

/-- A successful `_calc_spectrum` run decomposes into a successful input
validation and a successful dispatch. -/
theorem calc_spectrum_one_ok {a : CalcArgs} {a2v : ℚ → ℚ} {res : (ℚ × ℚ) × Routine}
    (h : calc_spectrum_one a a2v = .ok res) :
    validateInputs a a2v = .ok res.1 ∧ dispatchRoutine a = .ok res.2 := by
  unfold calc_spectrum_one at h
  rcases hv : validateInputs a a2v with e | b <;> rw [hv] at h
  · simp [Bind.bind, Except.bind] at h
  · rcases hd : dispatchRoutine a with e | r <;> rw [hd] at h
    · simp [Bind.bind, Except.bind] at h
    · simp only [Bind.bind, Except.bind, Except.ok.injEq] at h
      subst h
      exact ⟨rfl, rfl⟩

/-- Input validation succeeds only when `Tvib` and `Trot` are both given or
both omitted. -/
theorem validateInputs_ok_pair {a : CalcArgs} {a2v : ℚ → ℚ} {b : ℚ × ℚ}
    (h : validateInputs a a2v = .ok b) : (a.Tvib = none ↔ a.Trot = none) := by
  unfold validateInputs at h
  split at h
  · simp at h
  · split at h
    · simp at h
    · rcases hres : resolveWavenumBounds a.wavenum_min a.wavenum_max a.wavelength_min
        a.wavelength_max a.medium a2v with e | bounds <;> rw [hres] at h
      · simp [Bind.bind, Except.bind] at h
      · simp only [Bind.bind, Except.bind] at h
        split at h
        · simp at h
        · split at h
          · simp at h
          next hpair =>
            constructor
            · intro hv
              by_contra hr
              exact hpair (Or.inl ⟨hv, hr⟩)
            · intro hr
              by_contra hv
              exact hpair (Or.inr ⟨hv, hr⟩)

/-- A successful dispatch selects an equilibrium routine exactly when
`_is_at_equilibrium` holds, and otherwise the non-equilibrium routine with
`Ttrans = Tgas`. -/
theorem dispatchRoutine_ok {a : CalcArgs} {r : Routine} (h : dispatchRoutine a = .ok r) :
    (r.isEq = is_at_equilibrium a) ∧
    (r.isEq = false → r = .nonEqSpectrum a.Tvib a.Trot a.Tgas) := by
  unfold dispatchRoutine at h
  split at h
  next heq =>
    split at h
    · simp only [Except.ok.injEq] at h
      subst h
      simp [Routine.isEq, heq]
    · split at h
      · simp only [Except.ok.injEq] at h
        subst h
        simp [Routine.isEq, heq]
      · simp at h
  next heq =>
    split at h
    · simp at h
    · simp only [Except.ok.injEq] at h
      subst h
      rw [Bool.not_eq_true] at heq
      exact ⟨by simp [Routine.isEq, heq], fun _ => rfl⟩

/-- Characterisation of `_is_at_equilibrium` as a proposition on the call
arguments. -/
theorem is_at_equilibrium_iff (a : CalcArgs) :
    is_at_equilibrium a = true ↔
      ((a.Tvib = none ∨ a.Tvib = a.Tgas) ∧ (a.Trot = none ∨ a.Trot = a.Tgas) ∧
       a.overpopulation = none ∧ a.self_absorption ≠ some false) := by
  unfold is_at_equilibrium
  rcases hsa : a.self_absorption with _ | b
  · simp [hsa, and_assoc]
  · cases b
    · simp [hsa]
    · simp [hsa, and_assoc]

/-- C2: when at least one wavelength bound and at least one wavenumber bound
are both given, `_calc_spectrum` raises `ValueError` at the call boundary,
before any factory construction, database loading or synthesis. -/
theorem wavelength_wavenumber_conflict_fail_fast (a : CalcArgs) (a2v : ℚ → ℚ)
    (h1 : a.wavelength_min ≠ none ∨ a.wavelength_max ≠ none)
    (h2 : a.wavenum_min ≠ none ∨ a.wavenum_max ≠ none) :
    calc_spectrum_one a a2v =
      .error (.valueError "Wavenumber and Wavelength both given") := by
  unfold calc_spectrum_one validateInputs
  rw [if_pos ⟨h1, h2⟩]
  rfl

/-- Witness for C2 at a concrete call giving both `wavelength_min` and
`wavenum_min`. -/
theorem wavelength_wavenumber_conflict_fail_fast_witness :
    calc_spectrum_one argsConflictEx id =
      .error (.valueError "Wavenumber and Wavelength both given") :=
  wavelength_wavenumber_conflict_fail_fast argsConflictEx id
    (Or.inl (by decide)) (Or.inl (by decide))

/-- C3: a successful call computes the spectrum with an equilibrium routine
(driven by `Tgas` alone) iff `Tvib` is unset or equals `Tgas`, `Trot` is
unset or equals `Tgas`, there is no overpopulation and self-absorption is
not disabled; otherwise the non-equilibrium routine is invoked with `Tvib`,
`Trot` and `Ttrans = Tgas`.  In particular the equilibrium path is taken
only when `Tvib = Trot = Tgas` or the temperatures are unspecified. -/
theorem equilibrium_dispatch (a : CalcArgs) (a2v : ℚ → ℚ) (res : (ℚ × ℚ) × Routine)
    (h : calc_spectrum_one a a2v = .ok res) :
    (res.2.isEq = true ↔
      ((a.Tvib = none ∨ a.Tvib = a.Tgas) ∧ (a.Trot = none ∨ a.Trot = a.Tgas) ∧
       a.overpopulation = none ∧ a.self_absorption ≠ some false)) ∧
    (res.2.isEq = false → res.2 = .nonEqSpectrum a.Tvib a.Trot a.Tgas) ∧
    (res.2.isEq = true → (a.Tvib = none ∧ a.Trot = none) ∨
      (a.Tvib = a.Tgas ∧ a.Trot = a.Tgas)) := by
  obtain ⟨hv, hd⟩ := calc_spectrum_one_ok h
  obtain ⟨hiso, hne⟩ := dispatchRoutine_ok hd
  have hpair := validateInputs_ok_pair hv
  refine ⟨by rw [hiso]; exact is_at_equilibrium_iff a, hne, ?_⟩
  intro htrue
  obtain ⟨hvib, hrot, -, -⟩ := (is_at_equilibrium_iff a).mp (hiso ▸ htrue)
  rcases hvib with hvib | hvib
  · exact Or.inl ⟨hvib, hpair.mp hvib⟩
  · rcases hrot with hrot | hrot
    · exact Or.inl ⟨hpair.mpr hrot, hrot⟩
    · exact Or.inr ⟨hvib, hrot⟩

/-- Witness for C3 at a concrete equilibrium call (`Tgas` only, CPU). -/
theorem equilibrium_dispatch_witness :
    ((Routine.eqSpectrum (some 300)).isEq = true ↔
      ((argsEqEx.Tvib = none ∨ argsEqEx.Tvib = argsEqEx.Tgas) ∧
       (argsEqEx.Trot = none ∨ argsEqEx.Trot = argsEqEx.Tgas) ∧
       argsEqEx.overpopulation = none ∧ argsEqEx.self_absorption ≠ some false)) ∧
    ((Routine.eqSpectrum (some 300)).isEq = false →
      Routine.eqSpectrum (some 300) =
        .nonEqSpectrum argsEqEx.Tvib argsEqEx.Trot argsEqEx.Tgas) ∧
    ((Routine.eqSpectrum (some 300)).isEq = true →
      (argsEqEx.Tvib = none ∧ argsEqEx.Trot = none) ∨
      (argsEqEx.Tvib = argsEqEx.Tgas ∧ argsEqEx.Trot = argsEqEx.Tgas)) :=
  equilibrium_dispatch argsEqEx id ((1900, 2300), .eqSpectrum (some 300)) rfl

/-- C8: a call that is not at equilibrium and does not request CPU mode
never returns a spectrum, and — whenever the input validation passes —
fails with `NotImplementedError`. -/
theorem noneq_gpu_not_implemented (a : CalcArgs) (a2v : ℚ → ℚ)
    (hneq : is_at_equilibrium a = false) (hmode : a.mode ≠ "cpu") :
    (∀ res : (ℚ × ℚ) × Routine, calc_spectrum_one a a2v ≠ .ok res) ∧
    (∀ b : ℚ × ℚ, validateInputs a a2v = .ok b →
      calc_spectrum_one a a2v = .error (.notImplementedError a.mode)) := by
  have hd : dispatchRoutine a = .error (.notImplementedError a.mode) := by
    unfold dispatchRoutine
    rw [hneq]
    simp [hmode]
  constructor
  · intro res hok
    obtain ⟨-, hd2⟩ := calc_spectrum_one_ok hok
    rw [hd] at hd2
    simp at hd2
  · intro b hv
    unfold calc_spectrum_one
    rw [hv]
    simp [Bind.bind, Except.bind, hd]

/-- Witness for C8 at a concrete non-equilibrium call requesting GPU mode. -/
theorem noneq_gpu_not_implemented_witness :
    calc_spectrum_one argsNonEqGpuEx id ≠
      .ok (((1900 : ℚ), (2300 : ℚ)), Routine.eqSpectrum (some 300)) ∧
    calc_spectrum_one argsNonEqGpuEx id = .error (.notImplementedError "gpu") :=
  ⟨(noneq_gpu_not_implemented argsNonEqGpuEx id rfl (by decide)).1 _,
   (noneq_gpu_not_implemented argsNonEqGpuEx id rfl (by decide)).2 (1900, 2300) rfl⟩

/-- C10: with both wavenumber bounds omitted and both wavelength bounds
given, the working range swaps the bounds — `wavenum_min` derives from
`wavelength_max` and `wavenum_max` from `wavelength_min`, through `nm2cm`,
with the air-to-vacuum correction applied first unless the medium is vacuum
— and an increasing wavelength pair yields an increasing wavenumber pair. -/
theorem wavelength_bounds_swap (wlmin wlmax : ℚ) (medium : String) (a2v : ℚ → ℚ)
    (hmed : medium = "air" ∨ medium = "vacuum")
    (h0 : 0 < wlmin) (hlt : wlmin < wlmax)
    (hmono : ∀ x y : ℚ, 0 < x → x < y → a2v x < a2v y)
    (hpos : ∀ x : ℚ, 0 < x → 0 < a2v x) :
    resolveWavenumBounds none none (some wlmin) (some wlmax) medium a2v =
      .ok (nm2cm (if medium = "vacuum" then wlmax else a2v wlmax),
           nm2cm (if medium = "vacuum" then wlmin else a2v wlmin)) ∧
    nm2cm (if medium = "vacuum" then wlmax else a2v wlmax) <
      nm2cm (if medium = "vacuum" then wlmin else a2v wlmin) := by
  have key : ∀ u v : ℚ, 0 < u → u < v → nm2cm v < nm2cm u := by
    intro u v hu huv
    unfold nm2cm
    exact div_lt_div_of_pos_left (by norm_num) hu huv
  rcases hmed with hmed | hmed <;> subst hmed
  · exact ⟨rfl, key _ _ (hpos wlmin h0) (hmono _ _ h0 hlt)⟩
  · exact ⟨rfl, key _ _ h0 hlt⟩

/-- Witness for C10 at wavelengths 1 and 2 nm in air, with the identity as
air-to-vacuum correction. -/
theorem wavelength_bounds_swap_witness :
    resolveWavenumBounds none none (some 1) (some 2) "air" id =
      .ok (nm2cm (if "air" = "vacuum" then (2 : ℚ) else id 2),
           nm2cm (if "air" = "vacuum" then (1 : ℚ) else id 1)) ∧
    nm2cm (if "air" = "vacuum" then (2 : ℚ) else id 2) <
      nm2cm (if "air" = "vacuum" then (1 : ℚ) else id 1) :=
  wavelength_bounds_swap 1 2 "air" id (Or.inl rfl) (by norm_num) (by norm_num)
    (fun x y _ h => h) (fun x h => h)

/-- The only error the consistency check can raise is the key-mismatch
`ValueError`. -/
theorem check_molecules_error {ref : Option (Finset String)} {n1 n2 : String}
    {arg : Option (Finset String)} {e : CalcError}
    (h : check_molecules_are_consistent ref n1 arg n2 = .error e) :
    e = .valueError "Keys of molecules in the dictionary must be the same" := by
  unfold check_molecules_are_consistent at h
  split at h
  · simp at h
  · split at h
    · simp only [Except.error.injEq] at h
      exact h.symm
    · simp at h
  · simp at h

/-- A successful consistency check returns the dict keys when the argument
is a dict, and the previous reference otherwise. -/
theorem check_molecules_ok {ref : Option (Finset String)} {n1 n2 : String}
    {arg : Option (Finset String)} {s : Option (Finset String) × String}
    (h : check_molecules_are_consistent ref n1 arg n2 = .ok s) :
    s.1 = arg.or ref := by
  unfold check_molecules_are_consistent at h
  split at h
  · simp only [Except.ok.injEq] at h
    subst h
    rfl
  · split at h
    · simp at h
    · simp only [Except.ok.injEq] at h
      subst h
      rfl
  · simp only [Except.ok.injEq] at h
    subst h
    rfl

/-- A dict argument whose keys differ from an established reference set
makes the consistency check fail. -/
theorem check_molecules_mismatch {ref : Option (Finset String)} {n1 n2 : String}
    {arg : Option (Finset String)} {k r : Finset String}
    (harg : arg = some k) (href : ref = some r) (hkr : k ≠ r) :
    check_molecules_are_consistent ref n1 arg n2 =
      .error (.valueError "Keys of molecules in the dictionary must be the same") := by
  subst harg
  subst href
  show (if k ≠ r then
      Except.error (CalcError.valueError
        "Keys of molecules in the dictionary must be the same")
    else Except.ok ((some k, n2) : Option (Finset String) × String)) = _
  rw [if_pos hkr]

/-- C9: if `isotope`, `mole_fraction` or `databank` is a dict whose key set
differs from the established molecule set (from the `molecule` argument or an
earlier dict argument), `calc_spectrum` raises `ValueError` before any
spectrum is computed. -/
theorem molecule_dict_consistency
    (molecule isotope mole_fraction databank : Option (Finset String))
    (a : CalcArgs) (a2v : ℚ → ℚ)
    (h : (∃ k r, isotope = some k ∧ molecule = some r ∧ k ≠ r) ∨
         (∃ k r, mole_fraction = some k ∧ isotope.or molecule = some r ∧ k ≠ r) ∨
         (∃ k r, databank = some k ∧
            mole_fraction.or (isotope.or molecule) = some r ∧ k ≠ r)) :
    calc_spectrum molecule isotope mole_fraction databank a a2v =
      .error (.valueError "Keys of molecules in the dictionary must be the same") := by
  have hp : parseMoleculeSet molecule isotope mole_fraction databank =
      .error (.valueError "Keys of molecules in the dictionary must be the same") := by
    rcases h with ⟨k, r, hi, hm, hkr⟩ | ⟨k, r, hmf, hest, hkr⟩ | ⟨k, r, hdb, hest, hkr⟩
    · unfold parseMoleculeSet
      rw [check_molecules_mismatch hi hm hkr]
      rfl
    · unfold parseMoleculeSet
      rcases hc1 : check_molecules_are_consistent molecule "molecule" isotope "isotope"
        with e | s1
      · rw [check_molecules_error hc1]
        rfl
      · have h1 : s1.1 = some r := (check_molecules_ok hc1).trans hest
        simp only [Bind.bind, Except.bind]
        rw [check_molecules_mismatch hmf h1 hkr]
    · unfold parseMoleculeSet
      rcases hc1 : check_molecules_are_consistent molecule "molecule" isotope "isotope"
        with e | s1
      · rw [check_molecules_error hc1]
        rfl
      · simp only [Bind.bind, Except.bind]
        rcases hc2 : check_molecules_are_consistent s1.1 s1.2 mole_fraction "mole_fraction"
          with e | s2
        · rw [check_molecules_error hc2]
        · have h2 : s2.1 = some r := by
            rw [check_molecules_ok hc2, check_molecules_ok hc1]
            exact hest
          simp only [Bind.bind, Except.bind]
          rw [check_molecules_mismatch hdb h2 hkr]
  unfold calc_spectrum
  rw [hp]
  rfl

/-- Witness for C9: `molecule` names CO2 but the `isotope` dict names CO. -/
theorem molecule_dict_consistency_witness :
    calc_spectrum (some {"CO2"}) (some {"CO"}) none none argsEqEx id =
      .error (.valueError "Keys of molecules in the dictionary must be the same") :=
  molecule_dict_consistency (some {"CO2"}) (some {"CO"}) none none argsEqEx id
    (Or.inl ⟨{"CO"}, {"CO2"}, rfl, rfl, by decide⟩)

/-- Summing the fibers of a scatter-add contribution list over any index set
containing its support recovers the plain sum of the contributed values. -/
theorem sum_fiberSum {K : Type} [DecidableEq K] (l : List (K × ℚ)) (S : Finset K)
    (hS : ∀ p ∈ l, p.1 ∈ S) :
    ∑ k ∈ S, fiberSum l k = (l.map (fun p => p.2)).sum := by
  induction l with
  | nil => simp [fiberSum]
  | cons p l ih =>
    have hmem : p.1 ∈ S := hS p (List.mem_cons_self _ _)
    have hS2 : ∀ q ∈ l, q.1 ∈ S := fun q hq => hS q (List.mem_cons_of_mem _ hq)
    have hstep : ∀ k, fiberSum (p :: l) k = (if p.1 = k then p.2 else 0) + fiberSum l k := by
      intro k
      unfold fiberSum
      by_cases hpk : p.1 = k
      · simp [List.filter_cons, hpk]
      · simp [List.filter_cons, hpk]
    calc ∑ k ∈ S, fiberSum (p :: l) k
        = ∑ k ∈ S, ((if p.1 = k then p.2 else 0) + fiberSum l k) :=
          Finset.sum_congr rfl (fun k _ => hstep k)
      _ = (∑ k ∈ S, if p.1 = k then p.2 else 0) + ∑ k ∈ S, fiberSum l k :=
          Finset.sum_add_distrib
      _ = p.2 + (l.map (fun p => p.2)).sum := by
          rw [ih hS2, Finset.sum_ite_eq S p.1 (fun _ => p.2), if_pos hmem]
      _ = ((p :: l).map (fun p => p.2)).sum := by simp

/-- The four corner weights of a line sum to its full linestrength, whatever
the interpolation fractions are. -/
theorem ldmContribs_mass (lines : List LdmLine) :
    ((ldmContribs lines).map (fun p => p.2)).sum = totalLinestrength lines := by
  induction lines with
  | nil => simp [ldmContribs, totalLinestrength]
  | cons L ls ih =>
    simp only [ldmContribs, List.flatMap_cons, List.map_append, List.sum_append,
      totalLinestrength, List.map_cons, List.sum_cons] at ih ⊢
    rw [ih]
    simp [cornerWeights]
    ring

/-- Distributing a constant over the values of an enumerated list sums to the
constant times the list sum. -/
theorem enum_mul_sum (c : ℚ) (l : List ℚ) :
    ((l.enum).map (fun iw => c * iw.2)).sum = c * l.sum := by
  have h2 : ∀ m : List ℚ, (m.map (fun x => c * x)).sum = c * m.sum := by
    intro m
    induction m with
    | nil => simp
    | cons a m ih => simp [ih, mul_add]
  have h1 : (l.enum).map (fun iw => c * iw.2)
      = ((l.enum).map Prod.snd).map (fun x => c * x) := by
    rw [List.map_map]
    rfl
  rw [h1, List.enum_map_snd]
  exact h2 l

/-- Spreading each element mass across a normalized kernel preserves the
total mass. -/
theorem spread_mass {B : Type} (l : List B) (s : B → ℚ) (ker : B → List ℚ) (off : B → ℕ)
    (hker : ∀ b ∈ l, (ker b).sum = 1) :
    ((l.flatMap (fun b => (ker b).enum.map (fun iw => (off b + iw.1, s b * iw.2)))).map
      (fun q => q.2)).sum = (l.map s).sum := by
  induction l with
  | nil => simp
  | cons b l ih =>
    have hb : (ker b).sum = 1 := hker b (List.mem_cons_self _ _)
    have hl : ∀ x ∈ l, (ker x).sum = 1 := fun x hx => hker x (List.mem_cons_of_mem _ hx)
    simp only [List.flatMap_cons, List.map_append, List.sum_append, List.map_cons,
      List.sum_cons, ih hl]
    congr 1
    have h2 : ((ker b).enum.map (fun iw => (off b + iw.1, s b * iw.2))).map (fun q => q.2)
        = (ker b).enum.map (fun iw => s b * iw.2) := by
      rw [List.map_map]
      rfl
    rw [h2, enum_mul_sum, hb, mul_one]

/-- C1: mass conservation.  For every line set and any index set containing
the support: (a) the total weighted strength accumulated in the per-template
density arrays, summed over all bins and templates, equals the sum of the
included linestrengths, for arbitrary per-line interpolation fractions (hence
for both the "simple" and the "min-RMS" weighting policies); (b) with
normalized template kernels, the integral of the LDM-synthesized coefficient
over the full working grid equals the same sum; (c) with normalized exact
lineshapes, so does the integral of the `optimization=None` path. -/
theorem ldm_mass_conservation (lines : List LdmLine) (kernel : ℕ × ℕ → List ℚ)
    (shape : LdmLine → List ℚ) (Kd : Finset ((ℕ × ℕ) × ℕ)) (Ks Ke : Finset ℕ) :
    ((∀ p ∈ ldmContribs lines, p.1 ∈ Kd) →
      ∑ key ∈ Kd, ldmDensity lines key = totalLinestrength lines) ∧
    ((∀ t : ℕ × ℕ, (kernel t).sum = 1) → (∀ p ∈ synthContribs lines kernel, p.1 ∈ Ks) →
      ∑ j ∈ Ks, ldmSpectrum lines kernel j = totalLinestrength lines) ∧
    ((∀ L ∈ lines, (shape L).sum = 1) → (∀ p ∈ exactContribs lines shape, p.1 ∈ Ke) →
      ∑ j ∈ Ke, exactSpectrum lines shape j = totalLinestrength lines) := by
  refine ⟨?_, ?_, ?_⟩
  · intro hK
    exact (sum_fiberSum (ldmContribs lines) Kd hK).trans (ldmContribs_mass lines)
  · intro hker hK
    exact (sum_fiberSum (synthContribs lines kernel) Ks hK).trans
      ((spread_mass (ldmContribs lines) (fun p => p.2) (fun p => kernel p.1.1)
        (fun p => p.1.2) (fun p _ => hker p.1.1)).trans (ldmContribs_mass lines))
  · intro hshape hK
    exact (sum_fiberSum (exactContribs lines shape) Ke hK).trans
      ((spread_mass lines (fun L => L.strength) shape (fun L => L.bin) hshape).trans rfl)

/-- Witness for C1 on a concrete two-line set, a normalized kernel and a
normalized exact shape, summing over the exact supports. -/
theorem ldm_mass_conservation_witness :
    (∑ key ∈ KdEx, ldmDensity linesEx key = totalLinestrength linesEx) ∧
    (∑ j ∈ KsEx, ldmSpectrum linesEx kernelEx j = totalLinestrength linesEx) ∧
    (∑ j ∈ KeEx, exactSpectrum linesEx shapeEx j = totalLinestrength linesEx) :=
  ⟨(ldm_mass_conservation linesEx kernelEx shapeEx KdEx KsEx KeEx).1 (by decide),
   (ldm_mass_conservation linesEx kernelEx shapeEx KdEx KsEx KeEx).2.1
     (fun t => by simp only [kernelEx, List.sum_cons, List.sum_nil]; norm_num)
     (by decide),
   (ldm_mass_conservation linesEx kernelEx shapeEx KdEx KsEx KeEx).2.2
     (fun L _ => by simp only [shapeEx, List.sum_cons, List.sum_nil]; norm_num)
     (by decide)⟩

/-- C4: range-filter boundary.  A line exactly at
`wavenum_min - broadening_max_width / 2` is kept, a line strictly outside
the extended range is dropped, and concretely with `wavenum_min = 2000`,
`wavenum_max = 2300`, `broadening_max_width = 10`, a line at 1994.9 is
excluded while lines at 1995 and 1995.1 are included. -/
theorem range_filter_boundary (lines : List ℚ) (wmin wmax bmw v : ℚ)
    (hb : 0 ≤ bmw) (hw : wmin ≤ wmax) :
    (v = wmin - bmw / 2 → v ∈ lines → v ∈ rangeFilter wmin wmax bmw lines) ∧
    ((v < wmin - bmw / 2 ∨ wmax + bmw / 2 < v) → v ∉ rangeFilter wmin wmax bmw lines) ∧
    (1994.9 : ℚ) ∉ rangeFilter 2000 2300 10 [(1994.9 : ℚ), 1995, 1995.1] ∧
    (1995 : ℚ) ∈ rangeFilter 2000 2300 10 [(1994.9 : ℚ), 1995, 1995.1] ∧
    (1995.1 : ℚ) ∈ rangeFilter 2000 2300 10 [(1994.9 : ℚ), 1995, 1995.1] := by
  refine ⟨?_, ?_, ?_, ?_, ?_⟩
  · intro hv hmem
    have h1 : wmin - bmw / 2 ≤ v := le_of_eq hv.symm
    have h2 : v ≤ wmax + bmw / 2 := by
      rw [hv]
      linarith
    unfold rangeFilter
    rw [List.mem_filter]
    refine ⟨hmem, ?_⟩
    simp only [decide_eq_true_eq]
    exact ⟨h1, h2⟩
  · intro hout hmem
    unfold rangeFilter at hmem
    rw [List.mem_filter] at hmem
    obtain ⟨-, hpred⟩ := hmem
    simp only [decide_eq_true_eq] at hpred
    obtain ⟨hl, hr⟩ := hpred
    rcases hout with hout | hout
    · linarith
    · linarith
  · intro hmem
    unfold rangeFilter at hmem
    rw [List.mem_filter] at hmem
    obtain ⟨-, hpred⟩ := hmem
    simp only [decide_eq_true_eq] at hpred
    obtain ⟨h1, -⟩ := hpred
    norm_num at h1
  · unfold rangeFilter
    rw [List.mem_filter]
    refine ⟨by norm_num, ?_⟩
    simp only [decide_eq_true_eq]
    constructor <;> norm_num
  · unfold rangeFilter
    rw [List.mem_filter]
    refine ⟨by norm_num, ?_⟩
    simp only [decide_eq_true_eq]
    constructor <;> norm_num

/-- Witness for C4 at the literal coordinates of the spec. -/
theorem range_filter_boundary_witness :
    ((1995 : ℚ) = 2000 - 10 / 2 → (1995 : ℚ) ∈ [(1995 : ℚ)] →
      (1995 : ℚ) ∈ rangeFilter 2000 2300 10 [(1995 : ℚ)]) ∧
    (((1995 : ℚ) < 2000 - 10 / 2 ∨ (2300 : ℚ) + 10 / 2 < 1995) →
      (1995 : ℚ) ∉ rangeFilter 2000 2300 10 [(1995 : ℚ)]) ∧
    (1994.9 : ℚ) ∉ rangeFilter 2000 2300 10 [(1994.9 : ℚ), 1995, 1995.1] ∧
    (1995 : ℚ) ∈ rangeFilter 2000 2300 10 [(1994.9 : ℚ), 1995, 1995.1] ∧
    (1995.1 : ℚ) ∈ rangeFilter 2000 2300 10 [(1994.9 : ℚ), 1995, 1995.1] :=
  range_filter_boundary [(1995 : ℚ)] 2000 2300 10 1995 (by norm_num) (by norm_num)

/-- C5: Doppler-width temperature scaling.  For a fixed line, doubling the
temperature scales the Gaussian broadening width by exactly the square root
of 2, as follows from the closed form. -/
theorem doppler_width_temperature_scaling (wavenumber kB mass c T : ℝ) :
    gamma_gaussian wavenumber kB mass c (2 * T) =
      Real.sqrt 2 * gamma_gaussian wavenumber kB mass c T := by
  unfold gamma_gaussian
  have h : 2 * Real.log 2 * kB * (2 * T) / (mass * c ^ 2)
      = 2 * (2 * Real.log 2 * kB * T / (mass * c ^ 2)) := by ring
  rw [h, Real.sqrt_mul (by norm_num : (0 : ℝ) ≤ 2)]
  ring

/-- C7: degenerate template bank.  With fewer than 2 distinct widths (in
particular a single-line input) the bank degenerates to exactly one template
and the line weight on it is exactly 1; the guarded branch performs no
spacing division. -/
theorem template_bank_degenerate (axisBuilder : ℚ → ℚ → List ℚ) (widths : List ℚ)
    (g : ℚ) (hne : widths ≠ []) (hdeg : widths.dedup.length < 2) :
    (buildTemplates axisBuilder widths).length = 1 ∧
    ldmWeightOn (buildTemplates axisBuilder widths) g = 1 := by
  have hdne : widths.dedup ≠ [] := fun h0 => hne ((List.dedup_eq_nil _).mp h0)
  have hb : buildTemplates axisBuilder widths = widths.dedup := by
    simp only [buildTemplates]
    rw [if_pos hdeg]
  have hlen : (buildTemplates axisBuilder widths).length = 1 := by
    rw [hb]
    have hpos : 0 < widths.dedup.length := List.length_pos.mpr hdne
    omega
  refine ⟨hlen, ?_⟩
  unfold ldmWeightOn
  rw [if_pos (show (buildTemplates axisBuilder widths).length < 2 by omega)]

/-- Witness for C7 on the single-line width set. -/
theorem template_bank_degenerate_witness :
    (buildTemplates (fun _ _ => []) [(5 : ℚ)]).length = 1 ∧
    ldmWeightOn (buildTemplates (fun _ _ => []) [(5 : ℚ)]) 7 = 1 :=
  template_bank_degenerate (fun _ _ => []) [(5 : ℚ)] 7 (by decide) (by decide)

end Radis
